import Mathlib

/-!
# Verification of the autonomous real-time verification pipeline

Shallow embedding of the repository's core algorithms:

* `core/schedulability_analyzer.py` — Liu–Layland / response-time analysis
  (`SchedulabilityAnalyzer.analyze`, `_calculate_response_time`);
* `core/priority_validator.py` — priority validation and RMS auto-fix
  (`PriorityValidator.validate_priorities`, `auto_fix_priorities`);
* `core/autonomous_pipeline.py` — the bounded repair loop
  (`AutonomousPipeline.run_pipeline` and its stages 1–7);
* `core/uppaal_verifier.py` — output parsing of `UppaalVerifier.verify`.

Modelling conventions:
* Python integers are modelled as `ℕ` (all quantities in the pipeline are
  non-negative; stage 1 rejects non-positive periods/execution times).
* Python floats that only ever hold integer values (response times, which are
  sums of products of integers) are modelled as `ℕ`; the convergence test
  `abs(R_new - R_i) < 0.01` on such values is equality.
* `math.ceil(a / b)` on integer-valued floats is modelled as exact ceiling
  division (the two agree whenever `b·⌈a/b⌉ < 2^53`).
* The two float literals `1.1` and `1.2` are *not* exactly representable as
  doubles, and `math.ceil(R * 1.1)` genuinely differs from `⌈11R/10⌉` at small
  inputs (e.g. `R = 50`).  The products `R * 1.1` and `D * 1.2` are therefore
  modelled bit-exactly: `ceilFloat`/`floorFloat` below round the exact product
  of `R` with the double's mantissa to 53 significant bits (round to nearest,
  ties to even), which is IEEE-754 binary64 arithmetic for `1 ≤ R < 2^52`.
* The float total-utilization sum is modelled as an exact fraction; the float
  and exact comparisons with `1.0` can only disagree when the utilization is
  within about `2⁻⁵⁰` of 1, which requires periods beyond `2²⁵`.
-/

/-! ## IEEE-754 binary64 multiplication by the literals 1.1 and 1.2 -/

/-- Mantissa of the double `1.1`, scaled by `2^52`:
`1.1 = 0x1.199999999999a * 2^0`. -/
def mant11 : ℕ := 4953959590107546

/-- Mantissa of the double `1.2`, scaled by `2^52`:
`1.2 = 0x1.3333333333333 * 2^0`. -/
def mant12 : ℕ := 5404319552844595

/-- `⌊log₂ p⌋` for `0 < p < 2^127`, computed without unary recursion on `p`
(so that it kernel-reduces on literals): the number of `i < 128` with
`2^i ≤ p`, minus one. -/
def pyLog2 (p : ℕ) : ℕ :=
  ((List.range 128).filter (fun i => 2 ^ i ≤ p)).length - 1

/-- Round `num / den` to the nearest integer, ties to even. -/
def roundHE (num den : ℕ) : ℕ :=
  let q := num / den
  let r := num % den
  if 2 * r < den then q
  else if den < 2 * r then q + 1
  else if q % 2 = 0 then q else q + 1

/-- Ceiling division on `ℕ`. -/
def ceilD (a b : ℕ) : ℕ := (a + b - 1) / b

/-- The 53-bit significand `k` and exponent `e` of the double obtained by
multiplying the integer `R` by the double with scaled mantissa `M`
(value `M / 2^52`): the resulting double is `k * 2^(e-104)`. -/
def fmulK (M R : ℕ) : ℕ × ℕ :=
  let p := R * M
  let e := pyLog2 p
  (roundHE p (2 ^ (e - 52)), e)

/-- `math.ceil(R * c)` where `c` is the double with scaled mantissa `M`.
Bit-exact for `R < 2^52` (validated against CPython binary64 arithmetic). -/
def ceilFloat (M R : ℕ) : ℕ :=
  if R = 0 then 0
  else
    let ke := fmulK M R
    if ke.2 ≤ 104 then ceilD ke.1 (2 ^ (104 - ke.2)) else ke.1 * 2 ^ (ke.2 - 104)

/-- `int(R * c)` (truncation toward zero) where `c` is the double with scaled
mantissa `M`.  Bit-exact for `R < 2^52`. -/
def floorFloat (M R : ℕ) : ℕ :=
  if R = 0 then 0
  else
    let ke := fmulK M R
    if ke.2 ≤ 104 then ke.1 / 2 ^ (104 - ke.2) else ke.1 * 2 ^ (ke.2 - 104)

/-! ## Schedulability analyzer (`core/schedulability_analyzer.py`) -/

/-- A task dictionary as received by `SchedulabilityAnalyzer.analyze`.
`none` models both a missing key and Python `None` (both make
`task.get(k)` return `None`). -/
structure RawTask where
  task_name : String
  execution_time : Option ℕ := none
  max_execution : Option ℕ := none
  min_execution : Option ℕ := none
  period : Option ℕ := none
  deadline : Option ℕ := none
  priority : Option ℕ := none
  deriving DecidableEq, Repr

/-- A task after `analyze`'s defaulting pass: every numeric field present. -/
structure VTask where
  task_name : String
  execution_time : ℕ
  period : ℕ
  deadline : ℕ
  priority : ℕ
  deriving DecidableEq, Repr

/-- Python truthiness of an optional integer: `0` is falsy, so
`task.get(k) or d` falls through on both `None` and `0`. -/
def pyTruthy (x : Option ℕ) : Option ℕ :=
  match x with
  | some 0 => none
  | x => x

/-- The defaulting pass at the top of `analyze`:
`execution_time or max_execution or min_execution or 10`,
`period or 100`, `deadline or period`, `priority or 5`. -/
def validateTask (t : RawTask) : VTask :=
  let exec := ((pyTruthy t.execution_time).or ((pyTruthy t.max_execution).or
    (pyTruthy t.min_execution))).getD 10
  let period := (pyTruthy t.period).getD 100
  { task_name := t.task_name
    execution_time := exec
    period := period
    deadline := (pyTruthy t.deadline).getD period
    priority := (pyTruthy t.priority).getD 5 }

/-- One pass of the interference sum in `_calculate_response_time`:
`R_new = C_i + Σ_{j : P_j > P_i} ceil(R / T_j) * C_j`.
Note the source condition is `hp_task['priority'] > P_i`
(*higher* numeric value interferes). -/
def rtaStep (C P : ℕ) (all : List VTask) (R : ℕ) : ℕ :=
  (all.filter (fun h => P < h.priority)).foldl
    (fun acc h => acc + ceilD R h.period * h.execution_time) C

/-- The iteration of `_calculate_response_time`: at most 100 rounds, stop on a
fixed point (`|R_new − R| < 0.01` on integers, i.e. equality) or as soon as the
value exceeds twice the deadline. -/
def rtaGo (C P D : ℕ) (all : List VTask) : ℕ → ℕ → ℕ
  | 0, R => R
  | fuel + 1, R =>
    let Rn := rtaStep C P all R
    if Rn = R then Rn
    else if 2 * D < Rn then Rn
    else rtaGo C P D all fuel Rn

/-- `SchedulabilityAnalyzer._calculate_response_time(task, all_tasks)`. -/
def calcRT (t : VTask) (all : List VTask) : ℕ :=
  rtaGo t.execution_time t.priority t.deadline all 100 t.execution_time

/-- Total utilization as an exact fraction `(numerator, denominator)`,
accumulated left to right like the source's `sum(...)`. -/
def utilPair (l : List VTask) : ℕ × ℕ :=
  l.foldl (fun acc t => (acc.1 * t.period + t.execution_time * acc.2, acc.2 * t.period))
    (0, 1)

/-- Total utilization `U = Σ Cᵢ/Tᵢ` as a rational. -/
def utilization (l : List VTask) : ℚ :=
  l.foldl (fun acc t => acc + (t.execution_time : ℚ) / (t.period : ℚ)) 0

/-- The fields of `SchedulabilityResult` the claims are about.  The
`ll_bound` float, warnings and suggestion strings are reporting only and are
omitted (none of them feeds back into `is_schedulable`). -/
structure SchedResult where
  is_schedulable : Bool
  failed_tasks : List String
  deriving DecidableEq, Repr

/-- Python's stable descending-priority sort
`sorted(validated_tasks, key=lambda t: -t.get('priority', 5))`. -/
def sortByPrioDesc (l : List VTask) : List VTask :=
  l.insertionSort (fun a b => b.priority ≤ a.priority)

/-- `SchedulabilityAnalyzer.analyze`.  `none` models the uncaught
`ZeroDivisionError` raised by the Liu–Layland bound `n * (2**(1/n) - 1)`
when `n = 0`; utilization is compared with `1.0` via the exact fraction. -/
def analyze (ts : List RawTask) : Option SchedResult :=
  if ts.isEmpty then none
  else
    let v := ts.map validateTask
    let failed := ((sortByPrioDesc v).filter (fun t => t.deadline < calcRT t v)).map
      VTask.task_name
    some
      { is_schedulable := failed.isEmpty && decide ((utilPair v).1 ≤ (utilPair v).2)
        failed_tasks := failed }

/-- The response-time recurrence as the specification words it
(modelled from the spec for comparison with `calcRT`): interference from the
tasks `j` with `P_j < P_i` — *lower* numeric value interferes. -/
def specRtaStep (C P : ℕ) (all : List VTask) (R : ℕ) : ℕ :=
  (all.filter (fun h => h.priority < P)).foldl
    (fun acc h => acc + ceilD R h.period * h.execution_time) C

/-- The spec-side response time: the same iteration scheme as `rtaGo` but with
the spec's interference set `{j : P_j < P_i}`. -/
def specRtaGo (C P D : ℕ) (all : List VTask) : ℕ → ℕ → ℕ
  | 0, R => R
  | fuel + 1, R =>
    let Rn := specRtaStep C P all R
    if Rn = R then Rn
    else if 2 * D < Rn then Rn
    else specRtaGo C P D all fuel Rn

/-- The spec-side worst-case response time of a task. -/
def specResponseTime (t : VTask) (all : List VTask) : ℕ :=
  specRtaGo t.execution_time t.priority t.deadline all 100 t.execution_time

/-! ## Priority validator (`core/priority_validator.py`) -/

/-- The defaulting/clamping `PriorityValidator.validate_priorities` performs
*in place* on each input task dictionary (the loop body writes
`task['priority'] = …` when not in strict mode). -/
def vpFixTask (strict : Bool) (t : RawTask) : RawTask :=
  if strict then t
  else
    match t.priority with
    | none => { t with priority := some 5 }
    | some p => if 1 ≤ p ∧ p ≤ 10 then t else { t with priority := some (max 1 (min 10 p)) }

/-- Whether the per-task check of `validate_priorities` records an
error-severity issue: a missing priority is an error only in strict mode,
an out-of-range priority is always an error. -/
def vpTaskError (strict : Bool) (t : RawTask) : Bool :=
  match t.priority with
  | none => strict
  | some p => !decide (1 ≤ p ∧ p ≤ 10)

/-- The main loop of `validate_priorities`: walks the task list, accumulating
whether any error issue was recorded and the (mutated) task list. -/
def vpLoop (strict : Bool) (ts : List RawTask) : Bool × List RawTask :=
  ts.foldl (fun acc t => (acc.1 || vpTaskError strict t, acc.2 ++ [vpFixTask strict t]))
    (false, [])

/-- The priorities present on a task list (`t.get('priority') is not None`). -/
def presentPriorities (ts : List RawTask) : List ℕ :=
  ts.filterMap RawTask.priority

/-- `PriorityValidator.validate_uniqueness` fails iff some present priority
value repeats. -/
def hasDuplicatePriorities (ts : List RawTask) : Bool :=
  !decide (presentPriorities ts).Nodup

/-- `PriorityValidator.validate_priorities(tasks, strict_mode)`:
returns `(is_valid, state of the input list after the call)`.
`is_valid = unique_ok and not has_errors`; duplicate-priority issues are
error severity, so this reduces to `unique_ok && no loop error`.  The
uniqueness check runs on the already-mutated tasks.  The textual report is
omitted. -/
def validatePriorities (strict : Bool) (ts : List RawTask) : Bool × List RawTask :=
  let l := vpLoop strict ts
  (!hasDuplicatePriorities l.2 && !l.1, l.2)

/-- Sort key of `auto_fix_priorities`: `t.get('period') or 999999`
(missing and `0` both fall back). -/
def pvKey (t : RawTask) : ℕ :=
  (pyTruthy t.period).getD 999999

/-- The comparison `auto_fix_priorities` sorts by (on position-tagged tasks). -/
def pvRel (a b : ℕ × RawTask) : Prop := pvKey a.2 ≤ pvKey b.2

instance : DecidableRel pvRel := fun _ _ => Nat.decLe _ _

instance : IsTotal (ℕ × RawTask) pvRel := ⟨fun _ _ => Nat.le_total _ _⟩

instance : IsTrans (ℕ × RawTask) pvRel := ⟨fun _ _ _ h1 h2 => Nat.le_trans h1 h2⟩

/-- The stable ascending-period sort of `auto_fix_priorities`, with each task
tagged by its input position (modelling Python's object identity: the dicts
are mutated through the sorted view and the *original* list is returned). -/
def pvSorted (ts : List RawTask) : List (ℕ × RawTask) :=
  List.insertionSort pvRel ts.enum

/-- The position the task at input index `i` occupies in the sorted view. -/
def pvRank (ts : List RawTask) (i : ℕ) : ℕ :=
  ((pvSorted ts).map Prod.fst).indexOf i

/-- `PriorityValidator.auto_fix_priorities`: in strict mode with duplicate
priorities the list is returned untouched; otherwise the task at sorted
position `i` receives priority `max(1, 10 - i)` (the `priority_auto_fixed`
bookkeeping flag and the issue log are omitted). -/
def autoFixPriorities (strict : Bool) (ts : List RawTask) : List RawTask :=
  if strict && hasDuplicatePriorities ts then ts
  else ts.enum.map (fun p => { p.2 with priority := some (max 1 (10 - pvRank ts p.1)) })

/-! ## Pipeline controller (`core/autonomous_pipeline.py`)

The pipeline is modelled in the deterministic configuration the constructor
falls back to when no external collaborators are present:
`verifyta_path = None` (stage 6 uses `_simulate_verifyta`) and
`use_llm = False` (stage 4 uses the deterministic templates).  Stages 8–9
generate report strings that do not feed back into the loop and are omitted.
Stage 1's JSON round-trip (`json.dumps`/`json.loads`) is the identity on the
task records, which always carry all five fields once normalized, so the
specification is modelled as the task list itself. -/

/-- A pipeline task record (all five keys present). -/
structure PTask where
  name : String
  period_ms : ℕ
  deadline_ms : ℕ
  execution_ms : ℕ
  priority : ℕ
  deriving DecidableEq, Repr

/-- A generated TCTL property (the `llm_generated` flag is absent on the
deterministic template path). -/
structure TProperty where
  formula : String
  comment : String
  category : String
  deriving DecidableEq, Repr

/-- A counterexample record as consumed by stage 7. -/
structure CExample where
  property : String
  trace : List String
  violation : String
  deriving DecidableEq, Repr

/-- `_stage1_input_validation`'s required-field check: every task needs a
positive period and execution time (`≤ 0` on `ℕ` is `= 0`). -/
def stage1Valid (ts : List PTask) : Bool :=
  ts.all (fun t => !(t.period_ms = 0) && !(t.execution_ms = 0))

/-- Stage 2's stable ascending-period sort. -/
def stage2Sorted (ts : List PTask) : List PTask :=
  List.insertionSort (fun a b => a.period_ms ≤ b.period_ms) ts

/-- Stage 2 `needs_fix`: some task's priority differs from its
rank (1-based) in the period-sorted order. -/
def stage2NeedsFix (ts : List PTask) : Bool :=
  (stage2Sorted ts).enum.any (fun p => !(p.2.priority = p.1 + 1))

/-- `_stage2_priority_validation`: when a fix is needed the pipeline continues
with the period-sorted list carrying priorities `1..n`; otherwise the spec is
unchanged. -/
def stage2Apply (ts : List PTask) : List PTask :=
  if stage2NeedsFix ts then (stage2Sorted ts).enum.map (fun p => { p.2 with priority := p.1 + 1 })
  else ts

/-- The field renaming `_stage3_schedulability_analysis` applies before
calling the analyzer. -/
def toRawTask (t : PTask) : RawTask :=
  { task_name := t.name
    execution_time := some t.execution_ms
    period := some t.period_ms
    deadline := some t.deadline_ms
    priority := some t.priority }

/-- The same record viewed as an already-complete analyzer task, as used by
stage 3's direct calls to `_calculate_response_time` (which bypass
`analyze`'s defaulting). -/
def toVTask (t : PTask) : VTask :=
  { task_name := t.name
    execution_time := t.execution_ms
    period := t.period_ms
    deadline := t.deadline_ms
    priority := t.priority }

/-- Stage 3's `response_times` dictionary, keyed by task name (on duplicate
names the later entry wins, as in a Python dict).  Lookups in the pipeline
always hit, so the `KeyError` case is modelled as `0`. -/
def mkRts (ts : List PTask) : String → ℕ := fun nm =>
  match (ts.filter (fun t => t.name = nm)).getLast? with
  | some t => calcRT (toVTask t) (ts.map toVTask)
  | none => 0

/-- `AutonomousPipeline._auto_repair_schedulability`: every task whose
response time exceeds its deadline gets `deadline = math.ceil(R * 1.1)`
(bit-exact float model) and, when the new deadline exceeds the period, the
period is raised to it; other tasks are copied unchanged. -/
def autoRepairSched (ts : List PTask) (rts : String → ℕ) : List PTask :=
  ts.map (fun t =>
    if t.deadline_ms < rts t.name then
      let d := ceilFloat mant11 (rts t.name)
      { t with deadline_ms := d, period_ms := if t.period_ms < d then d else t.period_ms }
    else t)

/-- `re.sub(r'[^A-Za-z0-9_]', '_', name)` (character map over the string's
character list; `Char.isAlphanum` is exactly ASCII `[A-Za-z0-9]`). -/
def sanitizeName (s : String) : String :=
  String.mk (s.data.map (fun c => if c.isAlphanum || c = '_' then c else '_'))

/-- Template 1 of `_stage4_property_generation`. -/
def deadlockProp : TProperty :=
  { formula := "A[] not deadlock"
    comment := "System must be deadlock-free"
    category := "SAFETY" }

/-- Template 2: per-task deadline property. -/
def deadlineProp (t : PTask) : TProperty :=
  { formula := "A[] (" ++ sanitizeName t.name ++ ".Executing imply x <= " ++
      toString t.deadline_ms ++ ")"
    comment := t.name ++ " must complete before deadline"
    category := "DEADLINE" }

/-- Template 3: per-task reachability property. -/
def reachProp (t : PTask) : TProperty :=
  { formula := "E<> " ++ sanitizeName t.name ++ ".Done"
    comment := t.name ++ " can reach completion"
    category := "LIVENESS" }

/-- Template 4: mutual exclusion for one ordered pair. -/
def mutexProp (a b : PTask) : TProperty :=
  { formula := "A[] not (" ++ sanitizeName a.name ++ ".Executing and " ++
      sanitizeName b.name ++ ".Executing)"
    comment := "Mutual exclusion between " ++ a.name ++ " and " ++ b.name
    category := "MUTUAL_EXCLUSION" }

/-- Template 4's double loop over ordered pairs `i < j`
(guarded by `len(tasks) > 1`). -/
def mutexProps (ts : List PTask) : List TProperty :=
  if 1 < ts.length then
    ts.enum.flatMap (fun p => (ts.drop (p.1 + 1)).map (fun t2 => mutexProp p.2 t2))
  else []

/-- `_stage4_property_generation` on the deterministic template path
(the LLM collaborator is unavailable in the modelled configuration). -/
def stage4Properties (ts : List PTask) : List TProperty :=
  deadlockProp :: (ts.map deadlineProp ++ ts.map reachProp ++ mutexProps ts)

/-- Substring occurrence (`sub in s` on Python strings). -/
def occursList (sub s : List Char) : Bool :=
  s.tails.any (fun t => sub.isPrefixOf t)

/-- Substring occurrence on `String`. -/
def occursStr (sub s : String) : Bool :=
  occursList sub.toList s.toList

/-- XML escaping of stage 5 (`&`, `<`, `>`); the sequential `str.replace`
calls equal this per-character map because `&amp;`/`&lt;`/`&gt;` contain no
`<` or `>`. -/
def xmlEscape (s : String) : String :=
  String.join (s.toList.map (fun c =>
    if c = '&' then "&amp;" else if c = '<' then "&lt;"
    else if c = '>' then "&gt;" else String.singleton c))

/-- Modelled from the spec: `UppaalGenerator.generate_xml`
(`core/uppaal_generator.py` is not under `src/`).  Per spec §4.4 the emitted
model's shared declaration block contains the `cpu_owner` variable and the
`task_scheduled` vector; only the `"cpu_owner"` substring is observable by
the downstream simulated verifier.  The document body up to (excluding) the
closing `</nta>` tag. -/
def generateModelBody (ts : List PTask) : String :=
  "<nta>\n    <declaration>\nint cpu_owner = -1;\nbool task_scheduled[" ++
    toString ts.length ++ "];\n</declaration>\n"

/-- The `<queries>` block stage 5 splices in place of the closing tag
(`'\n'.join([...])` over `<query>` elements). -/
def queryBlock (props : List TProperty) : String :=
  String.intercalate "\n"
    (["<queries>"] ++
      props.flatMap (fun p =>
        ["        <query>",
         "            <formula>" ++ xmlEscape p.formula ++ "</formula>",
         "            <comment>" ++ xmlEscape p.comment ++ "</comment>",
         "        </query>"]) ++
      ["    </queries>", "</nta>"])

/-- `_stage5_uppaal_generation`: the modelled generator XML with the stage-4
properties as its query block. -/
def stage5Xml (ts : List PTask) (props : List TProperty) : String :=
  generateModelBody ts ++ queryBlock props

/-- One property verdict of `_simulate_verifyta`: everything passes except a
mutual-exclusion formula verified against a model without `cpu_owner`. -/
def simSat (xml : String) (p : TProperty) : Bool :=
  if occursStr "deadlock" p.formula then true
  else if occursStr "imply x <=" p.formula then true
  else if occursStr "E<>" p.formula then true
  else if occursStr "not (" p.formula && occursStr ".Executing and" p.formula then
    occursStr "cpu_owner" xml
  else true

/-- `_simulate_verifyta`: `(all_passed, counterexamples)`; each failing
property contributes the fixed two-state trace. -/
def simulateVerifyta (xml : String) (props : List TProperty) : Bool × List CExample :=
  (props.all (simSat xml),
   (props.filter (fun p => !simSat xml p)).map (fun p =>
     { property := p.formula
       trace := ["Task_0.Executing", "Task_1.Executing"]
       violation := "Tasks executing simultaneously" }))

/-- Whether a counterexample names this task (`task_name in ce.get("trace", [])`,
with `task_name` the sanitized name of the *original* task). -/
def ceMatchesTask (t : PTask) (ce : CExample) : Bool :=
  ce.trace.contains (sanitizeName t.name)

/-- `str.lower()` on the ASCII strings the pipeline produces. -/
def lowerStr (s : String) : String :=
  String.mk (s.data.map Char.toLower)

/-- Whether a counterexample is a deadline violation
(`"deadline" in ce.get("violation", "").lower()`). -/
def ceIsDeadline (ce : CExample) : Bool :=
  occursStr "deadline" (lowerStr ce.violation)

/-- One pass of the inner counterexample loop of `_stage7_failure_analysis`:
`t` is the original task (whose sanitized name is matched against the trace),
`rt` the accumulated repaired copy.  A matching deadline counterexample
rewrites the accumulated deadline to `int(deadline * 1.2)` (bit-exact float
model); nothing else is touched (the `simultaneously` branch is a no-op). -/
def stage7Step (t rt : PTask) (ce : CExample) : PTask :=
  if ceMatchesTask t ce then
    if ceIsDeadline ce then { rt with deadline_ms := floorFloat mant12 rt.deadline_ms }
    else rt
  else rt

/-- The inner counterexample loop of `_stage7_failure_analysis` for one task. -/
def stage7RepairTask (ces : List CExample) (t : PTask) : PTask :=
  ces.foldl (stage7Step t) t

/-- `_stage7_failure_analysis`: the repaired spec (repair log omitted). -/
def stage7Repair (ces : List CExample) (ts : List PTask) : List PTask :=
  ts.map (stage7RepairTask ces)

/-- The outcome of `run_pipeline` (the generated code, SDD and stage history
are reporting only and omitted). -/
structure PipeResult where
  converged : Bool
  iterations : ℕ
  final_spec : Option (List PTask)
  deriving DecidableEq, Repr

/-- The `while iteration < self.max_repair_iterations` loop of
`run_pipeline`, with the remaining budget as fuel and the number of finished
iterations carried along.  `none` models an uncaught exception (the analyzer's
division by zero on an empty task list). -/
def pipeLoop : ℕ → ℕ → List PTask → Option PipeResult
  | 0, iter, _ => some { converged := false, iterations := iter, final_spec := none }
  | fuel + 1, iter, inp =>
    if !stage1Valid inp then pipeLoop fuel (iter + 1) inp
    else
      let cur := stage2Apply inp
      match analyze (cur.map toRawTask) with
      | none => none
      | some r =>
        if r.is_schedulable then
          let props := stage4Properties cur
          let sim := simulateVerifyta (stage5Xml cur props) props
          if sim.1 then some { converged := true, iterations := iter + 1, final_spec := some cur }
          else pipeLoop fuel (iter + 1) (stage7Repair sim.2 cur)
        else pipeLoop fuel (iter + 1) (autoRepairSched cur (mkRts cur))

/-- `self.max_repair_iterations`. -/
def maxRepairIterations : ℕ := 10

/-- `AutonomousPipeline.run_pipeline` in the modelled configuration. -/
def runPipeline (inp : List PTask) : Option PipeResult :=
  pipeLoop maxRepairIterations 0 inp

/-! ## UPPAAL verifier output parsing (`core/uppaal_verifier.py`) -/

/-- Python `str.count`: non-overlapping occurrences, scanning left to right.
Structurally recursive on a fuel argument (called with the string length,
which bounds the number of scanning steps). -/
def pyCountAux (sub : List Char) : ℕ → List Char → ℕ
  | 0, _ => 0
  | _, [] => 0
  | fuel + 1, c :: t =>
    if sub.isPrefixOf (c :: t) then 1 + pyCountAux sub fuel (t.drop (sub.length - 1))
    else pyCountAux sub fuel t

/-- `s.count(sub)` (for the empty pattern Python returns `len(s) + 1`). -/
def pyCount (s sub : String) : ℕ :=
  if sub.isEmpty then s.length + 1 else pyCountAux sub.toList s.toList.length s.toList

/-- The verdict aggregation of `UppaalVerifier.verify` over the captured
`verifyta` output:
`all_passed = (failed_count == 0 and satisfied_count > 0)` where the counts
are of `"Formula is NOT satisfied"` and `"Formula is satisfied"`. -/
def verifyAllPassed (output : String) : Bool :=
  decide (pyCount output "Formula is NOT satisfied" = 0) &&
    decide (0 < pyCount output "Formula is satisfied")

/-! ## Concrete inputs used by counterexamples and witnesses -/

/-- An RMS-style pair: `A` has the shorter period semantics with priority `1`
(highest under the pipeline's RMS convention), `B` priority `2`. -/
def rmTaskA : VTask := { task_name := "A", execution_time := 2, period := 10, deadline := 10, priority := 1 }

/-- Companion task to `rmTaskA`. -/
def rmTaskB : VTask := { task_name := "B", execution_time := 3, period := 10, deadline := 10, priority := 2 }

/-- The spec's seed scenario S1: a single trivially schedulable task. -/
def s1Task : PTask := { name := "A", period_ms := 100, deadline_ms := 100, execution_ms := 10, priority := 1 }

/-! ## Theorems -/

/-- **C1.** The claim (and spec §4.3) demand the interference set
`{j : P_j < P_i}` (lower numeric priority value = higher priority).  The
analyzer's loop instead uses `hp_task['priority'] > P_i`, while the pipeline's
own stage 2 assigns RMS priorities with `1` = highest — so for the task with
priority `1` (the one stage 2 considers *highest*-priority) the code adds
interference from every other task instead of none: with `C_A = 2` it returns
`R_A = 5`, where the documented recurrence has the fixed point `C_A = 2`. -/
theorem c1_interference_direction_bug :
    calcRT rmTaskA [rmTaskA, rmTaskB] = 5 ∧
    specResponseTime rmTaskA [rmTaskA, rmTaskB] = 2 ∧
    calcRT rmTaskA [rmTaskA, rmTaskB] ≠ specResponseTime rmTaskA [rmTaskA, rmTaskB] := by
  decide

/-- **C5 (counterexample).** On the single-task scenario S1 the deterministic
template path produces `3` properties, not the claimed `4`: there is no
leads-to template (`-->` occurs in no generated formula). -/
theorem c5_counterexample :
    (stage4Properties [s1Task]).length = 3 ∧
    ¬(stage4Properties [s1Task]).length = 4 ∧
    (stage4Properties [s1Task]).all (fun p => !occursStr "-->" p.formula) = true := by
  decide

/-- **C5 (amended).** For every single-task specification the deterministic
template path produces exactly the three properties: deadlock safety,
the deadline bound, and reachability of `Done` — zero mutual-exclusion and
zero leads-to properties. -/
theorem c5_single_task_templates (t : PTask) :
    stage4Properties [t] = [deadlockProp, deadlineProp t, reachProp t] := by
  rfl

/-- **C9.** `analyze` is undefined on the empty task list (the Liu–Layland
bound `n * (2**(1/n) - 1)` divides by zero, modelled by the `none` branch),
and is total on every non-empty task list. -/
theorem c9_empty_task_list :
    analyze ([] : List RawTask) = none ∧
    ∀ ts : List RawTask, ts ≠ [] → (analyze ts).isSome = true := by
  refine ⟨rfl, fun ts h => ?_⟩
  simp [analyze, List.isEmpty_iff, h]

/-- Witness for `c9_empty_task_list`: the second conjunct applied to a
concrete one-task list. -/
theorem c9_empty_task_list_witness :
    (analyze [{ task_name := "T1" : RawTask }]).isSome = true :=
  c9_empty_task_list.2 [{ task_name := "T1" }] (by decide)

/-- The ceiling `⌈1.1·r⌉` exactly as the C7 claim words it
(modelled from the claim, for comparison with the code's float product). -/
def specCeil11 (r : ℕ) : ℕ := ceilD (11 * r) 10

/-- The ceiling `⌈1.2·d⌉` exactly as the C6 claim words it
(modelled from the claim, for comparison with the code's float product). -/
def specCeil12 (d : ℕ) : ℕ := ceilD (6 * d) 5

/-- A single task whose response time is its execution time `50`, exceeding
its deadline `40`. -/
def c7Task : PTask := { name := "A", period_ms := 100, deadline_ms := 40, execution_ms := 50, priority := 1 }

/-- **C7 (counterexample).** On `c7Task` the computed response time is `50`
and exceeds the deadline `40`, so the analyzer-side repair fires — but it sets
the new deadline to `56`, not to `⌈1.1·50⌉ = 55`: the code computes
`math.ceil(R * 1.1)` and the double product `50 * 1.1` is `55.00000000000001`,
whose ceiling is `56`. -/
theorem c7_counterexample :
    mkRts [c7Task] "A" = 50 ∧
    c7Task.deadline_ms < 50 ∧
    autoRepairSched [c7Task] (mkRts [c7Task]) =
      [{ name := "A", period_ms := 100, deadline_ms := 56, execution_ms := 50, priority := 1 }] ∧
    specCeil11 50 = 55 ∧
    ¬(56 : ℕ) = 55 := by
  decide

/-- **C7 (amended).** For every task list and response-time table: a task
whose response time is at most its deadline is copied unchanged; a task whose
response time `R` exceeds its deadline gets the new deadline
`math.ceil(R * 1.1)` (IEEE binary64 product, `ceilFloat mant11 R`), and its
period becomes the maximum of the old period and the new deadline — i.e. it
is raised to the new deadline exactly when the new deadline exceeds it. -/
theorem c7_analyzer_repair (ts : List PTask) (rts : String → ℕ) (i : ℕ) (t : PTask)
    (h : ts[i]? = some t) :
    (rts t.name ≤ t.deadline_ms → (autoRepairSched ts rts)[i]? = some t) ∧
    (t.deadline_ms < rts t.name →
      (autoRepairSched ts rts)[i]? = some
        { t with deadline_ms := ceilFloat mant11 (rts t.name),
                 period_ms := max t.period_ms (ceilFloat mant11 (rts t.name)) }) := by
  unfold autoRepairSched
  rw [List.getElem?_map, h, Option.map_some']
  constructor
  · intro hle
    rw [if_neg (by omega)]
  · intro hlt
    rw [if_pos hlt]
    have hmax : (if t.period_ms < ceilFloat mant11 (rts t.name) then ceilFloat mant11 (rts t.name)
        else t.period_ms) = max t.period_ms (ceilFloat mant11 (rts t.name)) := by
      rcases Nat.lt_or_ge t.period_ms (ceilFloat mant11 (rts t.name)) with hc | hc
      · rw [if_pos hc, Nat.max_eq_right (Nat.le_of_lt hc)]
      · rw [if_neg (by omega), Nat.max_eq_left hc]
    simp only [hmax]

/-- Witness for `c7_analyzer_repair`: both branches instantiated on concrete
inputs (`c7Task` with response time `50 > 40`, and a task meeting its
deadline). -/
theorem c7_analyzer_repair_witness :
    ((autoRepairSched [c7Task] (fun _ => 50))[0]? = some
      { name := "A", period_ms := max 100 (ceilFloat mant11 50), deadline_ms := ceilFloat mant11 50,
        execution_ms := 50, priority := 1 }) ∧
    (autoRepairSched [s1Task] (fun _ => 10))[0]? = some s1Task :=
  ⟨(c7_analyzer_repair [c7Task] (fun _ => 50) 0 c7Task rfl).2 (by decide),
   (c7_analyzer_repair [s1Task] (fun _ => 10) 0 s1Task rfl).1 (by decide)⟩

/-- The first task of the C6 counterexample: deadline `10` equals the period,
so the claimed repaired deadline `⌈1.2·10⌉ = 12` would exceed the period. -/
def dlTaskA : PTask := { name := "A", period_ms := 10, deadline_ms := 10, execution_ms := 2, priority := 1 }

/-- The second task of the C6 counterexample: deadline `11`, for which
`int(11 * 1.2) = 13` while `⌈1.2·11⌉ = 14`. -/
def dlTaskB : PTask := { name := "B", period_ms := 20, deadline_ms := 11, execution_ms := 2, priority := 2 }

/-- A deadline-violation counterexample naming both tasks. -/
def dlCE : CExample :=
  { property := "A[] (A.Executing imply x <= 10)"
    trace := ["A", "B"]
    violation := "Deadline violated" }

/-- **C6 (counterexample).** Stage 7 repairs the two tasks to deadlines
`12 = int(10*1.2)` and `13 = int(11*1.2)`.  The claim fails twice: task `A`'s
new deadline `12` exceeds its period `10`, yet the period is left at `10`
(the claimed raise to `12` never happens); and task `B`'s new deadline is the
truncation `13`, not the claimed ceiling `⌈1.2·11⌉ = 14`. -/
theorem c6_counterexample :
    stage7Repair [dlCE] [dlTaskA, dlTaskB] =
      [{ name := "A", period_ms := 10, deadline_ms := 12, execution_ms := 2, priority := 1 },
       { name := "B", period_ms := 20, deadline_ms := 13, execution_ms := 2, priority := 2 }] ∧
    specCeil12 dlTaskA.deadline_ms = 12 ∧
    dlTaskA.period_ms < 12 ∧
    ¬(stage7Repair [dlCE] [dlTaskA, dlTaskB]).map PTask.period_ms = [12, 20] ∧
    specCeil12 dlTaskB.deadline_ms = 14 ∧
    ¬(stage7Repair [dlCE] [dlTaskA, dlTaskB]).map PTask.deadline_ms = [12, 14] := by
  decide

/-- Each step of stage 7's per-task repair only ever rewrites the deadline. -/
theorem stage7Step_frame (t rt : PTask) (ce : CExample) :
    (stage7Step t rt ce).period_ms = rt.period_ms ∧
    (stage7Step t rt ce).name = rt.name ∧
    (stage7Step t rt ce).execution_ms = rt.execution_ms ∧
    (stage7Step t rt ce).priority = rt.priority := by
  unfold stage7Step
  split_ifs <;> exact ⟨rfl, rfl, rfl, rfl⟩

/-- Stage 7's per-task repair only ever rewrites the deadline: name, period,
execution time and priority come through unchanged for every counterexample
list. -/
theorem stage7RepairTask_frame (ces : List CExample) (t : PTask) :
    (stage7RepairTask ces t).period_ms = t.period_ms ∧
    (stage7RepairTask ces t).name = t.name ∧
    (stage7RepairTask ces t).execution_ms = t.execution_ms ∧
    (stage7RepairTask ces t).priority = t.priority := by
  unfold stage7RepairTask
  suffices h : ∀ rt : PTask,
      (ces.foldl (stage7Step t) rt).period_ms = rt.period_ms ∧
      (ces.foldl (stage7Step t) rt).name = rt.name ∧
      (ces.foldl (stage7Step t) rt).execution_ms = rt.execution_ms ∧
      (ces.foldl (stage7Step t) rt).priority = rt.priority from h t
  induction ces with
  | nil => intro rt; exact ⟨rfl, rfl, rfl, rfl⟩
  | cons ce ces ih =>
    intro rt
    rw [List.foldl_cons]
    obtain ⟨hp, hn, he, hr⟩ := ih (stage7Step t rt ce)
    obtain ⟨sp, sn, se, sr⟩ := stage7Step_frame t rt ce
    exact ⟨hp.trans sp, hn.trans sn, he.trans se, hr.trans sr⟩

/-- **C6 (amended).** For every counterexample list, stage 7 preserves every
task's period, name, execution time and priority — a repaired deadline can
exceed the (unchanged) period; and a task named by a single
deadline-violation counterexample has its deadline rewritten to
`int(deadline * 1.2)` (IEEE binary64 product, `floorFloat mant12`), the
truncation rather than the ceiling. -/
theorem c6_stage7_repair (ces : List CExample) (ts : List PTask) :
    ((stage7Repair ces ts).map PTask.period_ms = ts.map PTask.period_ms ∧
     (stage7Repair ces ts).map PTask.name = ts.map PTask.name ∧
     (stage7Repair ces ts).map PTask.execution_ms = ts.map PTask.execution_ms ∧
     (stage7Repair ces ts).map PTask.priority = ts.map PTask.priority) ∧
    ∀ (t : PTask) (ce : CExample), ceMatchesTask t ce = true → ceIsDeadline ce = true →
      stage7RepairTask [ce] t = { t with deadline_ms := floorFloat mant12 t.deadline_ms } := by
  constructor
  · unfold stage7Repair
    rw [List.map_map, List.map_map, List.map_map, List.map_map]
    exact ⟨List.map_congr_left fun t _ => (stage7RepairTask_frame ces t).1,
           List.map_congr_left fun t _ => (stage7RepairTask_frame ces t).2.1,
           List.map_congr_left fun t _ => (stage7RepairTask_frame ces t).2.2.1,
           List.map_congr_left fun t _ => (stage7RepairTask_frame ces t).2.2.2⟩
  · intro t ce hm hd
    unfold stage7RepairTask stage7Step
    rw [List.foldl_cons, List.foldl_nil, if_pos hm, if_pos hd]

/-- Witness for `c6_stage7_repair`: the frame part and the deadline-rewrite
part instantiated on the concrete counterexample input. -/
theorem c6_stage7_repair_witness :
    (stage7Repair [dlCE] [dlTaskA]).map PTask.period_ms = [dlTaskA].map PTask.period_ms ∧
    stage7RepairTask [dlCE] dlTaskA = { dlTaskA with deadline_ms := floorFloat mant12 dlTaskA.deadline_ms } :=
  ⟨(c6_stage7_repair [dlCE] [dlTaskA]).1.1,
   (c6_stage7_repair [dlCE] [dlTaskA]).2 dlTaskA dlCE (by decide) (by decide)⟩

/-- After the analyzer's defaulting pass every period is positive
(`task.get('period') or 100` maps both `None` and `0` to `100`). -/
theorem validateTask_period_pos (t : RawTask) : 0 < (validateTask t).period := by
  unfold validateTask pyTruthy
  rcases hp : t.period with _ | p
  · simp
  · rcases p with _ | n <;> simp

/-- The exact-fraction utilization accumulator computes the rational
utilization sum: positive denominator, and the quotient equals the
left-to-right sum of `Cᵢ/Tᵢ` started at `a/b`. -/
theorem utilPair_foldl_spec (l : List VTask) (hl : ∀ t ∈ l, 0 < t.period) :
    ∀ a b : ℕ, 0 < b →
      0 < (l.foldl
          (fun acc t => (acc.1 * t.period + t.execution_time * acc.2, acc.2 * t.period))
          (a, b)).2 ∧
      (((l.foldl
          (fun acc t => (acc.1 * t.period + t.execution_time * acc.2, acc.2 * t.period))
          (a, b)).1 : ℚ) /
        ((l.foldl
          (fun acc t => (acc.1 * t.period + t.execution_time * acc.2, acc.2 * t.period))
          (a, b)).2 : ℚ)) =
        l.foldl (fun acc t => acc + (t.execution_time : ℚ) / (t.period : ℚ))
          ((a : ℚ) / (b : ℚ)) := by
  induction l with
  | nil => intro a b hb; exact ⟨hb, rfl⟩
  | cons t l ih =>
    intro a b hb
    have htp : 0 < t.period := hl t (by simp)
    have hl' : ∀ u ∈ l, 0 < u.period := fun u hu => hl u (by simp [hu])
    have step := (ih hl') (a * t.period + t.execution_time * b) (b * t.period)
      (Nat.mul_pos hb htp)
    have hbQ : (b : ℚ) ≠ 0 := by positivity
    have htQ : (t.period : ℚ) ≠ 0 := by
      have h0 : (0 : ℚ) < (t.period : ℚ) := by exact_mod_cast htp
      positivity
    have harg : ((a * t.period + t.execution_time * b : ℕ) : ℚ) /
        ((b * t.period : ℕ) : ℚ) =
        (a : ℚ) / (b : ℚ) + (t.execution_time : ℚ) / (t.period : ℚ) := by
      push_cast
      field_simp
    rw [List.foldl_cons, List.foldl_cons, ← harg]
    exact ⟨step.1, step.2⟩

/-- The analyzer's integer utilization test agrees with `U ≤ 1` over `ℚ`. -/
theorem utilPair_le_iff (l : List VTask) (hl : ∀ t ∈ l, 0 < t.period) :
    ((utilPair l).1 ≤ (utilPair l).2) ↔ utilization l ≤ 1 := by
  obtain ⟨hpos, heq⟩ := utilPair_foldl_spec l hl 0 1 one_pos
  have h0 : ((0 : ℕ) : ℚ) / ((1 : ℕ) : ℚ) = 0 := by norm_num
  rw [h0] at heq
  have hU : utilization l = ((utilPair l).1 : ℚ) / ((utilPair l).2 : ℚ) := by
    unfold utilization utilPair
    exact heq.symm
  have hpos2 : 0 < (utilPair l).2 := by
    unfold utilPair
    exact hpos
  have hposQ : (0 : ℚ) < ((utilPair l).2 : ℚ) := by exact_mod_cast hpos2
  rw [hU, div_le_one hposQ]
  exact Nat.cast_le.symm

/-- **C2.** For every task list accepted by the analyzer, the reported
`is_schedulable` flag is `true` iff every (validated) task's computed
worst-case response time is at most its deadline *and* the total utilization
is at most `1`. -/
theorem c2_is_schedulable_iff (ts : List RawTask) (r : SchedResult)
    (h : analyze ts = some r) :
    r.is_schedulable = true ↔
      ((∀ t ∈ ts.map validateTask, calcRT t (ts.map validateTask) ≤ t.deadline) ∧
        utilization (ts.map validateTask) ≤ 1) := by
  unfold analyze at h
  by_cases hts : ts.isEmpty
  · rw [if_pos hts] at h
    exact absurd h (by simp)
  · rw [if_neg hts] at h
    have hr := (Option.some.injEq _ _).mp h
    subst hr
    have hl : ∀ t ∈ ts.map validateTask, 0 < t.period := by
      intro t ht
      obtain ⟨rt, _, rfl⟩ := List.mem_map.mp ht
      exact validateTask_period_pos rt
    simp only [Bool.and_eq_true, decide_eq_true_eq, List.isEmpty_iff,
      List.map_eq_nil_iff, List.filter_eq_nil_iff, decide_eq_true_eq]
    constructor
    · rintro ⟨hfail, hutil⟩
      refine ⟨?_, (utilPair_le_iff _ hl).mp hutil⟩
      intro t ht
      have := hfail t (((List.perm_insertionSort _ _).mem_iff).mpr ht)
      omega
    · rintro ⟨hrt, hutil⟩
      refine ⟨?_, (utilPair_le_iff _ hl).mpr hutil⟩
      intro t ht
      have := hrt t (((List.perm_insertionSort _ _).mem_iff).mp ht)
      omega

/-- The concrete task used by the C2 witness. -/
def c2wTask : RawTask :=
  { task_name := "T", execution_time := some 10, period := some 100,
    deadline := some 100, priority := some 1 }

/-- Witness for `c2_is_schedulable_iff`: on a concrete schedulable task set
the theorem yields the response-time bound and the utilization bound. -/
theorem c2_is_schedulable_iff_witness :
    (∀ t ∈ [c2wTask].map validateTask,
      calcRT t ([c2wTask].map validateTask) ≤ t.deadline) ∧
    utilization ([c2wTask].map validateTask) ≤ 1 :=
  (c2_is_schedulable_iff [c2wTask] { is_schedulable := true, failed_tasks := [] }
    (by decide)).mp rfl

/-- **C8 (counterexample).** `validate_priorities` in permissive mode does
not leave its input unmutated: on a task with no priority it writes
`priority = 5` into the task dictionary, so the state of the input list after
the call differs from the input. -/
theorem c8_counterexample :
    ¬(validatePriorities false [{ task_name := "A" : RawTask }]).2 =
      [{ task_name := "A" : RawTask }] := by
  decide

/-- The mutation performed by `validate_priorities`' loop, as a function of
the input list: every task is rewritten by the per-task fix. -/
theorem vpLoop_snd (strict : Bool) (ts : List RawTask) :
    (vpLoop strict ts).2 = ts.map (vpFixTask strict) := by
  unfold vpLoop
  suffices h : ∀ acc : Bool × List RawTask,
      (ts.foldl (fun acc t => (acc.1 || vpTaskError strict t, acc.2 ++ [vpFixTask strict t]))
        acc).2 = acc.2 ++ ts.map (vpFixTask strict) by
    simpa using h (false, [])
  induction ts with
  | nil => intro acc; simp
  | cons t ts ih =>
    intro acc
    rw [List.foldl_cons, ih]
    simp

/-- **C8 (amended).** In permissive mode `validate_priorities` leaves the
input task list in a *mutated* state: after the call every input task dict
holds the fixed priority (missing `↦ 5`, out-of-range `↦` clamped into
`[1,10]`); exactly the tasks that already carry an in-range priority are
unchanged. -/
theorem c8_validate_mutates (ts : List RawTask) :
    ((validatePriorities false ts).2 = ts.map (vpFixTask false)) ∧
    (∀ (t : RawTask) (p : ℕ), t.priority = some p → 1 ≤ p → p ≤ 10 →
      vpFixTask false t = t) := by
  constructor
  · simpa [validatePriorities] using vpLoop_snd false ts
  · intro t p hp h1 h10
    unfold vpFixTask
    rw [if_neg (by simp)]
    rw [hp]
    simp [h1, h10]

/-- Witness for `c8_validate_mutates`: the post-call state on a concrete list
and the no-change case for an in-range priority. -/
theorem c8_validate_mutates_witness :
    ((validatePriorities false [{ task_name := "B", priority := some 3 : RawTask }]).2 =
      [{ task_name := "B", priority := some 3 : RawTask }].map (vpFixTask false)) ∧
    vpFixTask false { task_name := "B", priority := some 3 } =
      { task_name := "B", priority := some 3 } :=
  ⟨(c8_validate_mutates [{ task_name := "B", priority := some 3 }]).1,
   (c8_validate_mutates []).2 { task_name := "B", priority := some 3 } 3 rfl
     (by decide) (by decide)⟩

/-- A single-task spec that stage 1 accepts (positive period and execution),
stage 2 leaves alone (priority already `1`), whose utilization `150/100`
makes it unschedulable, and whose response time `150` meets the (inflated)
deadline `200` — so the analyzer-side repair rewrites nothing. -/
def c3Spec : List PTask :=
  [{ name := "A", period_ms := 100, deadline_ms := 200, execution_ms := 150, priority := 1 }]

/-- **C3 (counterexample).** On `c3Spec` the repair returns the task set
unchanged (same canonical form), yet the controller does *not* terminate with
a diverged status at that point: it re-enters the loop on the identical task
set and only stops after exhausting all `10` iterations. -/
theorem c3_counterexample :
    autoRepairSched c3Spec (mkRts c3Spec) = c3Spec ∧
    stage2Apply c3Spec = c3Spec ∧
    runPipeline c3Spec =
      some { converged := false, iterations := maxRepairIterations, final_spec := none } ∧
    ¬(runPipeline c3Spec).map PipeResult.iterations = some 1 := by
  decide

/-- **C3 (amended).** Whenever an iteration's repair hands the loop back an
unchanged task set (valid input, stage 2 a no-op, analyzer unschedulable,
analyzer-side repair the identity), the controller re-enters the loop on that
same task set every time and terminates only when the
`max_repair_iterations = 10` budget is exhausted, reporting
`converged = false`; there is no unchanged-spec detection. -/
theorem c3_loop_on_unchanged_spec (inp : List PTask)
    (h1 : stage1Valid inp = true)
    (h2 : stage2Apply inp = inp)
    (h3 : (analyze (inp.map toRawTask)).map SchedResult.is_schedulable = some false)
    (h4 : autoRepairSched inp (mkRts inp) = inp) :
    runPipeline inp =
      some { converged := false, iterations := maxRepairIterations, final_spec := none } := by
  obtain ⟨r, hr, hrs⟩ := Option.map_eq_some'.mp h3
  suffices h : ∀ fuel iter, pipeLoop fuel iter inp =
      some { converged := false, iterations := iter + fuel, final_spec := none } by
    simpa [runPipeline, maxRepairIterations] using h 10 0
  intro fuel
  induction fuel with
  | zero =>
    intro iter
    simp [pipeLoop]
  | succ f ih =>
    intro iter
    unfold pipeLoop
    rw [h1]
    simp only [Bool.not_true, Bool.false_eq_true, if_false, h2, hr, hrs, Bool.false_eq_true,
      if_false, h4]
    rw [ih (iter + 1)]
    congr 1
    simp only [PipeResult.mk.injEq, and_true, true_and]
    omega

/-- Witness for `c3_loop_on_unchanged_spec`: the hypotheses hold on the
concrete spec `c3Spec`. -/
theorem c3_loop_on_unchanged_spec_witness :
    runPipeline c3Spec =
      some { converged := false, iterations := maxRepairIterations, final_spec := none } :=
  c3_loop_on_unchanged_spec c3Spec (by decide) (by decide) (by decide) (by decide)

/-- In the stable ascending-key sort of `auto_fix_priorities`, a task with a
strictly smaller sort key ends up at a strictly smaller position. -/
theorem pvRank_lt_of_key_lt (ts : List RawTask) (i j : ℕ) (ti tj : RawTask)
    (hi : ts[i]? = some ti) (hj : ts[j]? = some tj)
    (hk : pvKey ti < pvKey tj) :
    pvRank ts i < pvRank ts j := by
  have hperm : (pvSorted ts).Perm ts.enum := List.perm_insertionSort _ _
  have hsort : List.Sorted pvRel (pvSorted ts) := List.sorted_insertionSort _ _
  have hfsts_perm : ((pvSorted ts).map Prod.fst).Perm (List.range ts.length) := by
    have h := hperm.map Prod.fst
    rwa [List.enum_map_fst] at h
  have key : ∀ x tx, ts[x]? = some tx → ∃ hx : pvRank ts x < (pvSorted ts).length,
      (pvSorted ts).get ⟨pvRank ts x, hx⟩ = (x, tx) := by
    intro x tx hx
    obtain ⟨hxlt, _⟩ := List.getElem?_eq_some.mp hx
    have hmem : x ∈ (pvSorted ts).map Prod.fst :=
      hfsts_perm.mem_iff.mpr (List.mem_range.mpr hxlt)
    have hidx : pvRank ts x < ((pvSorted ts).map Prod.fst).length :=
      List.indexOf_lt_length.mpr hmem
    have hidx2 : pvRank ts x < (pvSorted ts).length := by
      rwa [List.length_map] at hidx
    refine ⟨hidx2, ?_⟩
    have hval : ((pvSorted ts).map Prod.fst).get ⟨pvRank ts x, hidx⟩ = x :=
      List.indexOf_get hidx
    have hfst : ((pvSorted ts).get ⟨pvRank ts x, hidx2⟩).1 = x := by
      rw [List.get_eq_getElem] at hval ⊢
      rwa [List.getElem_map] at hval
    have hel : (pvSorted ts).get ⟨pvRank ts x, hidx2⟩ ∈ ts.enum :=
      hperm.mem_iff.mp (List.get_mem _ _ _)
    have hup := List.mem_enum_iff_getElem?.mp hel
    rw [hfst] at hup
    rw [hx] at hup
    have hsnd : ((pvSorted ts).get ⟨pvRank ts x, hidx2⟩).2 = tx :=
      (Option.some.inj hup).symm
    exact Prod.ext hfst hsnd
  obtain ⟨hri, hgi⟩ := key i ti hi
  obtain ⟨hrj, hgj⟩ := key j tj hj
  by_contra hcon
  push_neg at hcon
  rcases Nat.eq_or_lt_of_le hcon with heq | hlt
  · have gi2 : (pvSorted ts)[pvRank ts i]? = some (i, ti) :=
      List.getElem?_eq_some.mpr
        ⟨hri, (List.get_eq_getElem _ ⟨pvRank ts i, hri⟩).symm.trans hgi⟩
    have gj2 : (pvSorted ts)[pvRank ts j]? = some (j, tj) :=
      List.getElem?_eq_some.mpr
        ⟨hrj, (List.get_eq_getElem _ ⟨pvRank ts j, hrj⟩).symm.trans hgj⟩
    rw [heq] at gj2
    have h3 : (i, ti) = (j, tj) := Option.some.inj (gi2.symm.trans gj2)
    have h4 : ti = tj := congrArg Prod.snd h3
    rw [h4] at hk
    omega
  · have hrel := hsort.rel_get_of_lt
      (a := ⟨pvRank ts j, hrj⟩) (b := ⟨pvRank ts i, hri⟩) (Fin.mk_lt_mk.mpr hlt)
    rw [hgi, hgj] at hrel
    have : pvKey tj ≤ pvKey ti := hrel
    omega

/-- **C4 (amended).** In permissive mode `auto_fix_priorities` returns, at
each input position, the input task with its priority overwritten by
`max(1, 10 - rank)` where `rank` is the task's position in the stable
ascending-period sort (ties by input order, missing and zero periods sorting
as `999999`).  Consequently a strictly smaller sort key (shorter period)
yields a strictly smaller rank, hence a numerically *greater-or-equal*
priority — strictly greater whenever the longer-period task's priority sits
above the clamp at `1`.  The shortest-period task receives priority `10`,
not `1`, and priorities descend rather than ascend. -/
theorem c4_autofix_descending (ts : List RawTask) :
    (∀ i : ℕ, (autoFixPriorities false ts)[i]? =
      (ts[i]?).map (fun t => { t with priority := some (max 1 (10 - pvRank ts i)) })) ∧
    (∀ i j ti tj, ts[i]? = some ti → ts[j]? = some tj → pvKey ti < pvKey tj →
      pvRank ts i < pvRank ts j ∧
      max 1 (10 - pvRank ts j) ≤ max 1 (10 - pvRank ts i) ∧
      (1 < max 1 (10 - pvRank ts j) →
        max 1 (10 - pvRank ts j) < max 1 (10 - pvRank ts i))) := by
  constructor
  · intro i
    unfold autoFixPriorities
    rw [if_neg (by simp)]
    rw [List.getElem?_map, List.getElem?_enum]
    cases ts[i]? <;> rfl
  · intro i j ti tj hi hj hk
    have h := pvRank_lt_of_key_lt ts i j ti tj hi hj hk
    exact ⟨h, by omega, by omega⟩

/-- First task of the C4 counterexample input (shortest period). -/
def pvA : RawTask := { task_name := "A", period := some 10 }

/-- Second task of the C4 counterexample input. -/
def pvB : RawTask := { task_name := "B", period := some 20 }

/-- Third task of the C4 counterexample input (longest period). -/
def pvC : RawTask := { task_name := "C", period := some 30 }

/-- The C4 counterexample input: three tasks with ascending periods. -/
def pv3 : List RawTask := [pvA, pvB, pvC]

/-- **C4 (counterexample).** On three tasks with periods `10 < 20 < 30`,
permissive `auto_fix_priorities` returns priorities `[10, 9, 8]`: not a
permutation of `1..3` (it contains `10 > 3`), the *shortest*-period task
receives `10` rather than `1`, and `T₀ < T₁` comes with `P₀ > P₁` — the
claimed `Tᵢ < Tⱼ ⇒ Pᵢ < Pⱼ` fails. -/
theorem c4_counterexample :
    (autoFixPriorities false pv3).map RawTask.priority = [some 10, some 9, some 8] ∧
    ¬(autoFixPriorities false pv3).map RawTask.priority = [some 1, some 2, some 3] ∧
    some 10 ∈ (autoFixPriorities false pv3).map RawTask.priority ∧
    ¬(10 : ℕ) ≤ pv3.length := by
  decide

/-- Witness for `c4_autofix_descending`: both conjuncts instantiated on the
concrete three-task input. -/
theorem c4_autofix_descending_witness :
    ((autoFixPriorities false pv3)[0]? =
      (pv3[0]?).map (fun t => { t with priority := some (max 1 (10 - pvRank pv3 0)) })) ∧
    (pvRank pv3 0 < pvRank pv3 1 ∧
      max 1 (10 - pvRank pv3 1) ≤ max 1 (10 - pvRank pv3 0) ∧
      (1 < max 1 (10 - pvRank pv3 1) →
        max 1 (10 - pvRank pv3 1) < max 1 (10 - pvRank pv3 0))) :=
  ⟨(c4_autofix_descending pv3).1 0,
   (c4_autofix_descending pv3).2 0 1 pvA pvB rfl rfl (by decide)⟩

/-- `pyCountAux` returns `0` exactly when the (non-empty) pattern occurs
nowhere in the scanned list, provided the fuel covers the list length. -/
theorem pyCountAux_eq_zero_iff {sub : List Char} (hsub : sub ≠ []) :
    ∀ (fuel : ℕ) (s : List Char), s.length ≤ fuel →
      (pyCountAux sub fuel s = 0 ↔ occursList sub s = false) := by
  intro fuel
  induction fuel with
  | zero =>
    intro s hs
    have hnil : s = [] := List.length_eq_zero.mp (Nat.le_zero.mp hs)
    subst hnil
    rcases sub with _ | ⟨c, cs⟩
    · exact absurd rfl hsub
    · simp [pyCountAux, occursList, List.tails, List.isPrefixOf]
  | succ f ih =>
    intro s hs
    rcases s with _ | ⟨c, t⟩
    · rcases sub with _ | ⟨d, ds⟩
      · exact absurd rfl hsub
      · simp [pyCountAux, occursList, List.tails, List.isPrefixOf]
    · by_cases hp : sub.isPrefixOf (c :: t) = true
      · simp [pyCountAux, hp, occursList, List.tails_cons]
      · have ht : t.length ≤ f := by
          simpa using Nat.lt_succ_iff.mp (Nat.lt_of_lt_of_le (by simp) hs)
        have hp' : sub.isPrefixOf (c :: t) = false := Bool.eq_false_iff.mpr hp
        simp only [pyCountAux, if_neg hp, occursList, List.tails_cons, List.any_cons, hp',
          Bool.false_or]
        exact ih t ht

/-- **C10.** `verify`'s verdict over the captured output: `all_passed` is
`true` iff at least one `Formula is satisfied` line occurs and no
`Formula is NOT satisfied` line occurs; in particular the empty output yields
`false`. -/
theorem c10_verify_all_passed_iff :
    verifyAllPassed "" = false ∧
    ∀ output : String, (verifyAllPassed output = true ↔
      (occursStr "Formula is satisfied" output = true ∧
        occursStr "Formula is NOT satisfied" output = false)) := by
  constructor
  · decide
  · intro output
    have hn := pyCountAux_eq_zero_iff
      (show "Formula is NOT satisfied".toList ≠ [] by decide)
      output.toList.length output.toList (le_refl _)
    have hs := pyCountAux_eq_zero_iff
      (show "Formula is satisfied".toList ≠ [] by decide)
      output.toList.length output.toList (le_refl _)
    simp only [verifyAllPassed, pyCount, Bool.and_eq_true, decide_eq_true_eq,
      show ("Formula is NOT satisfied").isEmpty = false from rfl,
      show ("Formula is satisfied").isEmpty = false from rfl,
      if_false, Bool.false_eq_true, occursStr]
    constructor
    · rintro ⟨h0, hpos⟩
      refine ⟨?_, hn.mp h0⟩
      by_contra h
      have : occursList "Formula is satisfied".toList output.toList = false := by
        simpa using Bool.eq_false_iff.mpr h
      exact (Nat.pos_iff_ne_zero.mp hpos) (hs.mpr this)
    · rintro ⟨hocc, hnocc⟩
      refine ⟨hn.mpr hnocc, ?_⟩
      rcases Nat.eq_zero_or_pos (pyCountAux "Formula is satisfied".toList
          output.toList.length output.toList) with h | h
      · rw [hs.mp h] at hocc
        exact absurd hocc (by simp)
      · exact h
